import Mathlib

/-!
Verification development for the simple-sqlite-todo-list repository.

The embedding covers the local SQLite-backed store (src/main.rs,
impl TodoStore for TodoStoreSqlite) and the response handling of the
Google Tasks API client (src/google_tasks.rs). The database is modelled
as the list of rows of the todos table in rowid (table scan) order, and
each SQL statement as the corresponding transformation of that list.
JSON bodies are modelled by an inductive value type and the serde
derive semantics by explicit (de)serialization functions.
-/

/-- Error kind of the store contract (enum TodoError in src/main.rs). -/
inductive TodoError where
  | NotFound
  | StorageError
deriving DecidableEq, Repr

/-- Status enum of the domain model (src/main.rs). -/
inductive Status where
  | Todo
  | InProgress
  | Done
deriving DecidableEq, Repr

/-- Domain item as read back from the store (struct TodoItem in
src/main.rs): the id is rendered as a string. -/
structure TodoItem where
  id : String
  title : String
  content : String
  status : Status
deriving DecidableEq, Repr

/-- One row of the todos table: id INTEGER PRIMARY KEY AUTOINCREMENT,
title TEXT NOT NULL, content TEXT (nullable), status TEXT NOT NULL. -/
structure TodoRow where
  id : Int
  title : String
  content : Option String
  status : String
deriving DecidableEq, Repr

/-- State of the SQLite database: the rows of the todos table in rowid
(table scan) order, plus the AUTOINCREMENT counter for the next id. -/
structure SqliteState where
  rows : List TodoRow
  nextId : Int
deriving DecidableEq, Repr

/-- Rust str parse into i64, as used on the id argument of
complete_item: an optional sign followed by one or more ASCII digits,
with the value required to fit in the i64 range; anything else fails. -/
def parseI64 (s : String) : Option Int :=
  let signed : Bool × List Char :=
    match s.data with
    | '-' :: rest => (true, rest)
    | '+' :: rest => (false, rest)
    | cs => (false, cs)
  let digits := signed.2
  if digits.isEmpty then none
  else if digits.all (fun c => c.isDigit) then
    let v : Nat := digits.foldl (fun a c => a * 10 + (c.toNat - 48)) 0
    if signed.1 then
      if v ≤ 2 ^ 63 then some (-(v : Int)) else none
    else
      if v ≤ 2 ^ 63 - 1 then some (v : Int) else none
  else none

/-- Decoding of the status column string, shared by find_by_title and
list_items: the three enum names map to their variants and any other
string falls back to Todo. -/
def decodeStatus (s : String) : Status :=
  if s = "Todo" then Status.Todo
  else if s = "InProgress" then Status.InProgress
  else if s = "Done" then Status.Done
  else Status.Todo

/-- How a row is read back into a TodoItem in find_by_title and
list_items: the integer id rendered to a string, NULL content read as
the empty string (unwrap_or_default), the status string decoded. -/
def rowToItem (r : TodoRow) : TodoItem :=
  { id := toString r.id
    title := r.title
    content := r.content.getD ""
    status := decodeStatus r.status }

namespace TodoStoreSqlite

/-- INSERT INTO todos (title, content, status) VALUES (?, ?, Todo): a
new row with the next AUTOINCREMENT id is appended to the table. -/
def add_item (st : SqliteState) (title content : String) : SqliteState :=
  { rows := st.rows ++ [{ id := st.nextId, title := title, content := some content, status := "Todo" }]
    nextId := st.nextId + 1 }

/-- DELETE FROM todos WHERE title = ?: every row whose title equals the
argument is deleted; there is no affected-row check, so the result is
always Ok. -/
def remove_item (st : SqliteState) (title : String) :
    Except TodoError Unit × SqliteState :=
  (Except.ok (), { st with rows := st.rows.filter (fun r => !(r.title == title)) })

/-- UPDATE todos SET status = Done WHERE id = ?: the id string is first
parsed as an i64, with a parse failure mapped to NotFound before the
update runs; after the update, a zero affected-row count (change_count)
is reported as NotFound. -/
def complete_item (st : SqliteState) (id : String) :
    Except TodoError Unit × SqliteState :=
  match parseI64 id with
  | none => (Except.error TodoError.NotFound, st)
  | some n =>
    let updated := st.rows.map (fun r => if r.id = n then { r with status := "Done" } else r)
    if st.rows.countP (fun r => r.id == n) = 0 then
      (Except.error TodoError.NotFound, { st with rows := updated })
    else
      (Except.ok (), { st with rows := updated })

/-- SELECT id, title, content, status FROM todos WHERE title = ?: the
first matching row in table scan order, or none. -/
def find_by_title (st : SqliteState) (title : String) : Option TodoItem :=
  (st.rows.find? (fun r => r.title == title)).map rowToItem

/-- SELECT id, title, content, status FROM todos: all rows in table
scan order; an empty result set is reported as NotFound. -/
def list_items (st : SqliteState) : Except TodoError (List TodoItem) :=
  let items := st.rows.map rowToItem
  if items.isEmpty then Except.error TodoError.NotFound else Except.ok items

end TodoStoreSqlite

/-- JSON values, as serde_json Value: objects are kept as association
lists in field order. -/
inductive Json where
  | null
  | bool (b : Bool)
  | num (n : Int)
  | str (s : String)
  | arr (elems : List Json)
  | obj (fields : List (String × Json))

/-- Deserialization failure; the source treats serde errors as opaque. -/
inductive DeError where
  | invalid
deriving DecidableEq, Repr

/-- First value bound to a key in a JSON object. -/
def lookupField (fields : List (String × Json)) (key : String) : Option Json :=
  match fields with
  | [] => none
  | (k, v) :: rest => if k = key then some v else lookupField rest key

/-- serde deserialization of an Option String value: null maps to none,
a string maps to some, and any other JSON shape is an error. -/
def optionStringFromJson : Json → Except DeError (Option String)
  | Json.null => Except.ok none
  | Json.str s => Except.ok (some s)
  | _ => Except.error DeError.invalid

/-- deserialize_due_as_string (src/google_tasks.rs): delegates to the
plain Option deserializer, so any string shape is accepted unchanged
and no date or time validation happens. -/
def deserialize_due_as_string (j : Json) : Except DeError (Option String) :=
  optionStringFromJson j

/-- A TaskItem as (de)serialized by the client (src/google_tasks.rs):
every field is optional. -/
structure TaskItem where
  id : Option String
  title : Option String
  notes : Option String
  status : Option String
  due : Option String
deriving DecidableEq, Repr

/-- A TaskList as (de)serialized by the client (src/google_tasks.rs). -/
structure TaskList where
  id : Option String
  title : Option String
deriving DecidableEq, Repr

/-- serde serialization of an Option String field: none is emitted as
null (no field is skipped by the derive). -/
def optionStringToJson : Option String → Json
  | none => Json.null
  | some s => Json.str s

/-- serde Serialize for TaskItem: a JSON object with all five fields. -/
def taskItemToJson (t : TaskItem) : Json :=
  Json.obj
    [("id", optionStringToJson t.id),
     ("title", optionStringToJson t.title),
     ("notes", optionStringToJson t.notes),
     ("status", optionStringToJson t.status),
     ("due", optionStringToJson t.due)]

/-- serde reading of an Option String struct field: a missing field is
none (the implicit default for Option fields), a present field is
deserialized from its value. -/
def fieldOptionString (fields : List (String × Json)) (key : String) :
    Except DeError (Option String) :=
  match lookupField fields key with
  | none => Except.ok none
  | some j => optionStringFromJson j

/-- serde Deserialize for TaskItem: the value must be a JSON object;
id, title, notes and status are Option String fields, and due is read
with deserialize_due_as_string, defaulting to none when absent. -/
def taskItemFromJson : Json → Except DeError TaskItem
  | Json.obj fields => do
    let id ← fieldOptionString fields "id"
    let title ← fieldOptionString fields "title"
    let notes ← fieldOptionString fields "notes"
    let status ← fieldOptionString fields "status"
    let due ←
      match lookupField fields "due" with
      | none => Except.ok none
      | some j => deserialize_due_as_string j
    Except.ok { id := id, title := title, notes := notes, status := status, due := due }
  | _ => Except.error DeError.invalid

/-- serde Deserialize for TaskList. -/
def taskListFromJson : Json → Except DeError TaskList
  | Json.obj fields => do
    let id ← fieldOptionString fields "id"
    let title ← fieldOptionString fields "title"
    Except.ok { id := id, title := title }
  | _ => Except.error DeError.invalid

/-- serde Deserialize for a Vec of TaskItem. -/
def taskItemsFromJson : Json → Except DeError (List TaskItem)
  | Json.arr elems => elems.mapM taskItemFromJson
  | _ => Except.error DeError.invalid

/-- serde Deserialize for a Vec of TaskList. -/
def taskListsFromJson : Json → Except DeError (List TaskList)
  | Json.arr elems => elems.mapM taskListFromJson
  | _ => Except.error DeError.invalid

/-- An HTTP response as the client observes it after a successful send:
the status code and the JSON body. Transport failures and bodies that
are not JSON at all fail earlier, outside these response handlers. -/
structure HttpResponse where
  status : Nat
  body : Json

/-- Failure of a client call, after the request was sent. -/
inductive ReqError where
  | httpStatus (code : Nat)
  | badBody
deriving DecidableEq, Repr

namespace GoogleTasks

/-- reqwest error_for_status, as called by delete_task: a 4xx or 5xx
status code becomes an error and every other code passes through. -/
def error_for_status (r : HttpResponse) : Except ReqError HttpResponse :=
  if 400 ≤ r.status ∧ r.status ≤ 599 then
    Except.error (ReqError.httpStatus r.status)
  else Except.ok r

/-- list_tasklists response handling: the body must be an object whose
items field is an array of TaskList values (no default); the status
code is never inspected. -/
def list_tasklists_response (r : HttpResponse) : Except ReqError (List TaskList) :=
  match r.body with
  | Json.obj fields =>
    match lookupField fields "items" with
    | none => Except.error ReqError.badBody
    | some j =>
      match taskListsFromJson j with
      | Except.ok ls => Except.ok ls
      | Except.error _ => Except.error ReqError.badBody
  | _ => Except.error ReqError.badBody

/-- create_tasklist response handling: the body is deserialized as a
TaskList; the status code is never inspected. -/
def create_tasklist_response (r : HttpResponse) : Except ReqError TaskList :=
  match taskListFromJson r.body with
  | Except.ok l => Except.ok l
  | Except.error _ => Except.error ReqError.badBody

/-- Deserialization of the TasksResponse body of list_tasks: an object
whose items field defaults to the empty list when absent. -/
def tasksResponseFromJson : Json → Except DeError (List TaskItem)
  | Json.obj fields =>
    match lookupField fields "items" with
    | none => Except.ok []
    | some j => taskItemsFromJson j
  | _ => Except.error DeError.invalid

/-- list_tasks response handling: the body is parsed as a TasksResponse
and any parse failure falls back to the empty response
(unwrap_or_else), so the call always returns Ok; the status code is
never inspected. -/
def list_tasks_response (r : HttpResponse) : Except ReqError (List TaskItem) :=
  match tasksResponseFromJson r.body with
  | Except.ok items => Except.ok items
  | Except.error _ => Except.ok []

/-- create_task response handling: the body is deserialized as a
TaskItem; the status code is never inspected. -/
def create_task_response (r : HttpResponse) : Except ReqError TaskItem :=
  match taskItemFromJson r.body with
  | Except.ok t => Except.ok t
  | Except.error _ => Except.error ReqError.badBody

/-- update_task response handling: identical to create_task, the body
is deserialized as a TaskItem; the status code is never inspected. -/
def update_task_response (r : HttpResponse) : Except ReqError TaskItem :=
  match taskItemFromJson r.body with
  | Except.ok t => Except.ok t
  | Except.error _ => Except.error ReqError.badBody

/-- delete_task response handling: the only method that checks the
status code, through error_for_status; the body is ignored. -/
def delete_task_response (r : HttpResponse) : Except ReqError Unit :=
  match error_for_status r with
  | Except.ok _ => Except.ok ()
  | Except.error e => Except.error e

end GoogleTasks

/-- Helper: a nonempty list maps to a nonempty list. -/
theorem map_rowToItem_ne_nil (l : List TodoRow) (h : l ≠ []) :
    l.map rowToItem ≠ [] := by
  cases l with
  | nil => exact absurd rfl h
  | cons a t => simp

/-- C1: for the local backend, list_items on a store containing no
items returns the NotFound error, and on a store containing at least
one item it returns Ok with every stored item, never an empty Ok
sequence. -/
theorem C1_list_items_empty_is_notfound (st : SqliteState) :
    (st.rows = [] → TodoStoreSqlite.list_items st = Except.error TodoError.NotFound) ∧
    (st.rows ≠ [] →
      TodoStoreSqlite.list_items st = Except.ok (st.rows.map rowToItem) ∧
      st.rows.map rowToItem ≠ []) := by
  constructor
  · intro h
    simp [TodoStoreSqlite.list_items, h]
  · intro h
    have hne := map_rowToItem_ne_nil st.rows h
    have hempty : (st.rows.map rowToItem).isEmpty = false := by
      simpa [List.isEmpty_iff] using hne
    exact ⟨by simp [TodoStoreSqlite.list_items, hempty], hne⟩

/-- C2 counterexample: on a store holding two rows titled t,
remove_item t deletes both of them, leaving no row at all, instead of
removing only the first match in table scan order. -/
theorem C2_remove_item_first_match_only_false :
    ((⟨[⟨1, "t", some "a", "Todo"⟩, ⟨2, "t", some "b", "Todo"⟩], 3⟩ : SqliteState).rows.countP
        (fun r => r.title == "t") = 2) ∧
    (TodoStoreSqlite.remove_item
        ⟨[⟨1, "t", some "a", "Todo"⟩, ⟨2, "t", some "b", "Todo"⟩], 3⟩ "t").2.rows = [] := by
  constructor
  · rfl
  · rfl

/-- C2 amended: remove_item t always returns Ok and deletes every
stored item whose title equals t, so no item titled t remains, while
every item with a different title is kept. -/
theorem C2_remove_item_removes_every_match (st : SqliteState) (t : String) :
    (TodoStoreSqlite.remove_item st t).1 = Except.ok () ∧
    (∀ r ∈ (TodoStoreSqlite.remove_item st t).2.rows, r.title ≠ t) ∧
    (∀ r ∈ st.rows, r.title ≠ t → r ∈ (TodoStoreSqlite.remove_item st t).2.rows) := by
  refine ⟨rfl, ?_, ?_⟩
  · intro r hr
    have := (List.mem_filter.mp hr).2
    simpa using this
  · intro r hr hne
    exact List.mem_filter.mpr ⟨hr, by simpa using hne⟩

/-- C4: after add_item title content on the local backend, list_items
returns Ok with a sequence containing an item whose title and content
equal the arguments and whose status is Todo. -/
theorem C4_add_item_then_list_items (st : SqliteState) (title content : String) :
    ∃ items,
      TodoStoreSqlite.list_items (TodoStoreSqlite.add_item st title content) = Except.ok items ∧
      ∃ it ∈ items, it.title = title ∧ it.content = content ∧ it.status = Status.Todo := by
  have hne : (TodoStoreSqlite.add_item st title content).rows ≠ [] := by
    simp [TodoStoreSqlite.add_item]
  obtain ⟨-, h2⟩ := C1_list_items_empty_is_notfound (TodoStoreSqlite.add_item st title content)
  obtain ⟨hok, -⟩ := h2 hne
  refine ⟨_, hok, rowToItem ⟨st.nextId, title, some content, "Todo"⟩, ?_, rfl, rfl, ?_⟩
  · exact List.mem_map_of_mem rowToItem (by simp [TodoStoreSqlite.add_item])
  · simp [rowToItem, decodeStatus]

/-- Helper: complete_item after a successful id parse, written as one
pair: the error-or-ok flag from the affected-row count, and the rows
with every id match set to Done. -/
theorem complete_item_parsed (st : SqliteState) (idStr : String) (n : Int)
    (hp : parseI64 idStr = some n) :
    TodoStoreSqlite.complete_item st idStr =
      ((if st.rows.countP (fun r => r.id == n) = 0 then Except.error TodoError.NotFound
        else Except.ok ()),
       { st with rows := st.rows.map (fun r => if r.id = n then { r with status := "Done" } else r) }) := by
  unfold TodoStoreSqlite.complete_item
  rw [hp]
  by_cases h : st.rows.countP (fun r => r.id == n) = 0 <;> simp [h]

/-- Helper: the affected-row count of the Done update is nonzero
exactly when some row carries the id. -/
theorem countP_id_ne_zero (l : List TodoRow) (n : Int) :
    l.countP (fun r => r.id == n) ≠ 0 ↔ ∃ r ∈ l, r.id = n := by
  rw [Ne, List.countP_eq_zero]
  simp

/-- Helper: after the Done update, every row keeps its id, every row
whose id is n has status Done, and rows with other ids are unchanged. -/
theorem update_done_rows (l : List TodoRow) (n : Int) :
    ∀ r ∈ l.map (fun r => if r.id = n then { r with status := "Done" } else r),
      (r.id = n → r.status = "Done") := by
  intro r hr
  obtain ⟨r0, hr0, hfr⟩ := List.mem_map.mp hr
  by_cases h : r0.id = n
  · rw [if_pos h] at hfr
    intro _
    rw [← hfr]
  · rw [if_neg h] at hfr
    intro hid
    exact absurd (hfr ▸ hid) h

/-- Helper: the Done update preserves the multiset of ids; in
particular a present id is still present afterwards. -/
theorem update_done_keeps_id (l : List TodoRow) (n : Int) (hmem : ∃ r ∈ l, r.id = n) :
    ∃ r ∈ l.map (fun r => if r.id = n then { r with status := "Done" } else r), r.id = n := by
  obtain ⟨r0, hr0, hid⟩ := hmem
  refine ⟨if r0.id = n then { r0 with status := "Done" } else r0, List.mem_map_of_mem _ hr0, ?_⟩
  rw [if_pos hid]
  exact hid

/-- Helper: a single application of complete_item on a present id
returns Ok, marks every row with that id Done, and keeps the id
present. -/
theorem complete_item_hit (st : SqliteState) (idStr : String) (n : Int)
    (hp : parseI64 idStr = some n) (hmem : ∃ r ∈ st.rows, r.id = n) :
    (TodoStoreSqlite.complete_item st idStr).1 = Except.ok () ∧
    (∀ r ∈ (TodoStoreSqlite.complete_item st idStr).2.rows, r.id = n → r.status = "Done") ∧
    (∃ r ∈ (TodoStoreSqlite.complete_item st idStr).2.rows, r.id = n) := by
  rw [complete_item_parsed st idStr n hp]
  have hcount : st.rows.countP (fun r => r.id == n) ≠ 0 := (countP_id_ne_zero st.rows n).mpr hmem
  refine ⟨by simp [hcount], ?_, ?_⟩
  · exact update_done_rows st.rows n
  · exact update_done_keeps_id st.rows n hmem

/-- Helper: a row with status Done reads back as an item with id
toString n and status Done. -/
theorem list_items_done_observation (st : SqliteState) (n : Int)
    (hmem : ∃ r ∈ st.rows, r.id = n)
    (hdone : ∀ r ∈ st.rows, r.id = n → r.status = "Done") :
    ∃ items, TodoStoreSqlite.list_items st = Except.ok items ∧
      ∃ it ∈ items, it.id = toString n ∧ it.status = Status.Done := by
  obtain ⟨r0, hr0, hid⟩ := hmem
  have hne : st.rows ≠ [] := by
    intro h
    rw [h] at hr0
    exact absurd hr0 (List.not_mem_nil r0)
  obtain ⟨hok, -⟩ := (C1_list_items_empty_is_notfound st).2 hne
  refine ⟨_, hok, rowToItem r0, List.mem_map_of_mem rowToItem hr0, ?_, ?_⟩
  · rw [rowToItem, hid]
  · have := hdone r0 hr0 hid
    simp [rowToItem, this, decodeStatus]

/-- C5: for an id present in the local store, complete_item returns Ok
and the item with that id is observed as Done by list_items; calling
complete_item again on the same id also returns Ok and the status is
still observed as Done. -/
theorem C5_complete_item_done_and_idempotent (st : SqliteState) (idStr : String) (n : Int)
    (hp : parseI64 idStr = some n) (hmem : ∃ r ∈ st.rows, r.id = n) :
    ((TodoStoreSqlite.complete_item st idStr).1 = Except.ok () ∧
      ∃ items, TodoStoreSqlite.list_items (TodoStoreSqlite.complete_item st idStr).2 = Except.ok items ∧
        ∃ it ∈ items, it.id = toString n ∧ it.status = Status.Done) ∧
    ((TodoStoreSqlite.complete_item (TodoStoreSqlite.complete_item st idStr).2 idStr).1 = Except.ok () ∧
      ∃ items,
        TodoStoreSqlite.list_items
            (TodoStoreSqlite.complete_item (TodoStoreSqlite.complete_item st idStr).2 idStr).2 =
          Except.ok items ∧
        ∃ it ∈ items, it.id = toString n ∧ it.status = Status.Done) := by
  obtain ⟨hok1, hdone1, hmem1⟩ := complete_item_hit st idStr n hp hmem
  obtain ⟨hok2, hdone2, hmem2⟩ :=
    complete_item_hit (TodoStoreSqlite.complete_item st idStr).2 idStr n hp hmem1
  exact ⟨⟨hok1, list_items_done_observation _ n hmem1 hdone1⟩,
         ⟨hok2, list_items_done_observation _ n hmem2 hdone2⟩⟩

/-- C5 witness: on the one-row store with id 1 and status Todo,
complete_item of the string 1 returns Ok. -/
theorem C5_witness :
    (TodoStoreSqlite.complete_item ⟨[⟨1, "a", some "x", "Todo"⟩], 2⟩ "1").1 = Except.ok () :=
  (C5_complete_item_done_and_idempotent ⟨[⟨1, "a", some "x", "Todo"⟩], 2⟩ "1" 1
    (by decide) (by decide)).1.1

/-- C6: for an id string that parses as an integer matching no stored
row, complete_item returns NotFound (zero affected rows) and leaves
the stored state exactly as it was. -/
theorem C6_complete_item_missing_id (st : SqliteState) (idStr : String) (n : Int)
    (hp : parseI64 idStr = some n) (hnone : ∀ r ∈ st.rows, r.id ≠ n) :
    (TodoStoreSqlite.complete_item st idStr).1 = Except.error TodoError.NotFound ∧
    (TodoStoreSqlite.complete_item st idStr).2 = st := by
  rw [complete_item_parsed st idStr n hp]
  have hcount : st.rows.countP (fun r => r.id == n) = 0 := by
    rw [List.countP_eq_zero]
    intro r hr
    simpa using hnone r hr
  have hmap : st.rows.map (fun r => if r.id = n then { r with status := "Done" } else r) = st.rows := by
    have hid : st.rows.map (fun r => if r.id = n then { r with status := "Done" } else r) =
        st.rows.map id := by
      refine List.map_congr_left ?_
      intro r hr
      simp [hnone r hr]
    rw [hid, List.map_id]
  exact ⟨by simp [hcount], by simp [hmap]⟩

/-- C6 witness: on the one-row store with id 1, complete_item of the
string 5 reports NotFound and the state is unchanged. -/
theorem C6_witness :
    (TodoStoreSqlite.complete_item ⟨[⟨1, "a", some "x", "Todo"⟩], 2⟩ "5").1 =
        Except.error TodoError.NotFound ∧
    (TodoStoreSqlite.complete_item ⟨[⟨1, "a", some "x", "Todo"⟩], 2⟩ "5").2 =
        ⟨[⟨1, "a", some "x", "Todo"⟩], 2⟩ :=
  C6_complete_item_missing_id ⟨[⟨1, "a", some "x", "Todo"⟩], 2⟩ "5" 5 (by decide) (by decide)

/-- C9: for an id string that does not parse as an integer,
complete_item returns NotFound before any update runs and the stored
state is unchanged. -/
theorem C9_complete_item_unparsable_id (st : SqliteState) (idStr : String)
    (hp : parseI64 idStr = none) :
    (TodoStoreSqlite.complete_item st idStr).1 = Except.error TodoError.NotFound ∧
    (TodoStoreSqlite.complete_item st idStr).2 = st := by
  unfold TodoStoreSqlite.complete_item
  rw [hp]
  exact ⟨rfl, rfl⟩

/-- C9 witness: on the one-row store, complete_item of a non-numeric
id string reports NotFound and the state is unchanged. -/
theorem C9_witness :
    (TodoStoreSqlite.complete_item ⟨[⟨1, "a", some "x", "Todo"⟩], 2⟩ "abc").1 =
        Except.error TodoError.NotFound ∧
    (TodoStoreSqlite.complete_item ⟨[⟨1, "a", some "x", "Todo"⟩], 2⟩ "abc").2 =
        ⟨[⟨1, "a", some "x", "Todo"⟩], 2⟩ :=
  C9_complete_item_unparsable_id ⟨[⟨1, "a", some "x", "Todo"⟩], 2⟩ "abc" (by decide)

/-- C10: decoding of the stored status string is total: the three enum
names map to their variants, any other string falls back to Todo, and
both find_by_title and list_items build the status of every returned
item through this decoding of some stored row. -/
theorem C10_status_decoding_total (s : String) (st : SqliteState) (t : String) :
    (decodeStatus "Todo" = Status.Todo ∧ decodeStatus "InProgress" = Status.InProgress ∧
      decodeStatus "Done" = Status.Done) ∧
    (s ≠ "Todo" → s ≠ "InProgress" → s ≠ "Done" → decodeStatus s = Status.Todo) ∧
    (∀ it, TodoStoreSqlite.find_by_title st t = some it →
      ∃ r ∈ st.rows, it.status = decodeStatus r.status) ∧
    (∀ items, TodoStoreSqlite.list_items st = Except.ok items →
      ∀ it ∈ items, ∃ r ∈ st.rows, it.status = decodeStatus r.status) := by
  refine ⟨⟨by decide, by decide, by decide⟩, ?_, ?_, ?_⟩
  · intro h1 h2 h3
    simp [decodeStatus, h1, h2, h3]
  · intro it hit
    unfold TodoStoreSqlite.find_by_title at hit
    cases hfind : st.rows.find? (fun r => r.title == t) with
    | none => rw [hfind] at hit; exact absurd hit (by simp)
    | some r =>
      rw [hfind] at hit
      have : rowToItem r = it := by simpa using hit
      exact ⟨r, List.mem_of_find?_eq_some hfind, by rw [← this, rowToItem]⟩
  · intro items hitems it hit
    unfold TodoStoreSqlite.list_items at hitems
    by_cases hempty : (st.rows.map rowToItem).isEmpty
    · rw [if_pos hempty] at hitems
      exact absurd hitems (by simp)
    · rw [if_neg hempty] at hitems
      have : it ∈ st.rows.map rowToItem := by
        rw [Except.ok.injEq] at hitems
        rw [← hitems] at hit
        exact hit
      obtain ⟨r, hr, hfr⟩ := List.mem_map.mp this
      exact ⟨r, hr, by rw [← hfr, rowToItem]⟩

/-- C3 counterexample: create_task returns Ok on a 404 response whose
JSON error body deserializes into an all-none TaskItem (every field of
the struct is optional), and delete_task returns Ok on a 304 response,
which is not a 2xx status either. -/
theorem C3_non2xx_always_error_false :
    GoogleTasks.create_task_response ⟨404, Json.obj [("error", Json.str "Not Found")]⟩ =
        Except.ok ⟨none, none, none, none, none⟩ ∧
    GoogleTasks.delete_task_response ⟨304, Json.null⟩ = Except.ok () := by
  constructor
  · rfl
  · rfl

/-- C3 amended: only delete_task inspects the HTTP status code, and it
surfaces exactly the 4xx and 5xx codes as errors; the result of every
other method is computed from the response body alone, so for those a
non-2xx status is never surfaced by itself. -/
theorem C3_only_delete_checks_status (r : HttpResponse) (s1 s2 : Nat) (b : Json) :
    (GoogleTasks.delete_task_response r =
      if 400 ≤ r.status ∧ r.status ≤ 599 then Except.error (ReqError.httpStatus r.status)
      else Except.ok ()) ∧
    GoogleTasks.list_tasklists_response ⟨s1, b⟩ = GoogleTasks.list_tasklists_response ⟨s2, b⟩ ∧
    GoogleTasks.create_tasklist_response ⟨s1, b⟩ = GoogleTasks.create_tasklist_response ⟨s2, b⟩ ∧
    GoogleTasks.list_tasks_response ⟨s1, b⟩ = GoogleTasks.list_tasks_response ⟨s2, b⟩ ∧
    GoogleTasks.create_task_response ⟨s1, b⟩ = GoogleTasks.create_task_response ⟨s2, b⟩ ∧
    GoogleTasks.update_task_response ⟨s1, b⟩ = GoogleTasks.update_task_response ⟨s2, b⟩ := by
  refine ⟨?_, rfl, rfl, rfl, rfl, rfl⟩
  unfold GoogleTasks.delete_task_response GoogleTasks.error_for_status
  by_cases h : 400 ≤ r.status ∧ r.status ≤ 599
  · rw [if_pos h, if_pos h]
  · rw [if_neg h, if_neg h]

/-- Helper: deserializing the serialization of an Option String field
gives the field back. -/
theorem optionStringFromJson_toJson (o : Option String) :
    optionStringFromJson (optionStringToJson o) = Except.ok o := by
  cases o <;> rfl

/-- C7: the due field round-trips exactly through serialization and
deserialization of the whole TaskItem (so an echoed item keeps the due
string character for character), and deserialize_due_as_string accepts
every string shape, returning it unchanged. -/
theorem C7_due_passthrough (item : TaskItem) (s : String) :
    (∃ item2, taskItemFromJson (taskItemToJson item) = Except.ok item2 ∧ item2.due = item.due) ∧
    deserialize_due_as_string (Json.str s) = Except.ok (some s) := by
  constructor
  · refine ⟨item, ?_, rfl⟩
    obtain ⟨id, title, notes, status, due⟩ := item
    cases id <;> cases title <;> cases notes <;> cases status <;> cases due <;> rfl
  · rfl

/-- C8: list_tasks maps a response body whose items field is absent to
Ok with the empty sequence, and a body whose items field is present
and deserializes as a task array to Ok with exactly those tasks. -/
theorem C8_list_tasks_missing_items (status : Nat) (fields : List (String × Json))
    (j : Json) (tasks : List TaskItem) :
    (lookupField fields "items" = none →
      GoogleTasks.list_tasks_response ⟨status, Json.obj fields⟩ = Except.ok []) ∧
    (lookupField fields "items" = some j → taskItemsFromJson j = Except.ok tasks →
      GoogleTasks.list_tasks_response ⟨status, Json.obj fields⟩ = Except.ok tasks) := by
  constructor
  · intro h
    simp [GoogleTasks.list_tasks_response, GoogleTasks.tasksResponseFromJson, h]
  · intro h1 h2
    simp [GoogleTasks.list_tasks_response, GoogleTasks.tasksResponseFromJson, h1, h2]
